import Mathlib

/-!
Shallow embedding of `packages/runtime/src/get-mesh.ts` (graphql-mesh runtime).

The embedding models the in-context SDK callable, the source registry loop,
the two-level enveloped-pipeline memoization and the SDK requester adapter.
JavaScript values that the runtime merely stores and forwards (executors,
`argsFromKeys` / `valuesFromResults` callbacks, selection-set factories,
cache/pubsub handles) are represented by opaque `Nat` tokens; object identity
(the key of `memoize1`'s `WeakMap`) is represented by a `Nat` id.
JavaScript truthiness of optional `string` parameters is modelled explicitly
(`undefined` and `""` are falsy).
-/

namespace MeshRuntime

/-- The three GraphQL root operation kinds (`OperationTypeNode`). -/
inductive OperationType where
  | query
  | mutation
  | subscription
deriving DecidableEq, Repr

/-- A selection inside a selection set; only the shape the runtime inspects
(the node count and the `__typename` field it injects) is modelled. -/
inductive SelectionNode where
  | field (name : String)
  | fragmentSpread (name : String)
deriving DecidableEq, Repr

/-- `SelectionSetNode` from graphql-js: a list of selections. -/
structure SelectionSetNode where
  selections : List SelectionNode
deriving DecidableEq, Repr

/-- A field node of a resolve-info. `name` is optional because the runtime
spreads `info.fieldNodes[0]` even when the list is empty (`{...undefined}`
yields an object with no `name`). `selectionSet` is nullable in graphql-js. -/
structure FieldNode where
  name : Option String := none
  selectionSet : Option SelectionSetNode := none
deriving DecidableEq, Repr

/-- GraphQL type representation, enough for `getNamedType` / `isLeafType`. -/
inductive GType where
  | scalar (name : String)
  | enumType (name : String)
  | objectType (name : String)
  | interfaceType (name : String)
  | unionType (name : String)
  | listOf (t : GType)
  | nonNull (t : GType)
deriving DecidableEq, Repr

/-- `getNamedType` from graphql-js: unwrap list and non-null wrappers. -/
def getNamedType : GType → GType
  | .listOf t => getNamedType t
  | .nonNull t => getNamedType t
  | t => t

/-- `isLeafType` from graphql-js: scalars and enums are leaves. -/
def isLeafType : GType → Bool
  | .scalar _ => true
  | .enumType _ => true
  | _ => false

/-- `SelectionSetParamOrFactory`: a selection set supplied as parseable text,
as a pre-built document / selection-set AST, or as a factory function
(the factory itself is never invoked inside `get-mesh.ts`, so it is an
opaque token). -/
inductive SelectionSetParam where
  | text (s : String)
  | node (sels : SelectionSetNode)
  | factory (f : Nat)
deriving DecidableEq, Repr

/-- JavaScript truthiness of the optional `selectionSet` argument:
`undefined` is falsy, the empty string is falsy, every AST object and
every function is truthy. Used for `if (!selectionSet)` / `if (selectionSet)`. -/
def ssTruthy : Option SelectionSetParam → Bool
  | none => false
  | some (.text s) => !s.isEmpty
  | some (.node _) => true
  | some (.factory _) => true

/-- `typeof selectionSet === 'function'`. -/
def ssIsFunction : Option SelectionSetParam → Bool
  | some (.factory _) => true
  | _ => false

/-- JavaScript truthiness of the optional `key : string` argument:
`undefined` and `""` are falsy. Used for `if (key && argsFromKeys)`. -/
def keyTruthy : Option String → Bool
  | none => false
  | some s => !s.isEmpty

/-- The second component of a `WrapQuery` transform: `valuesFromResults`
when supplied, otherwise the `identical` helper. The callbacks are opaque
tokens for the runtime. -/
inductive ResultTransformer where
  | ofToken (f : Nat)
  | identical
deriving DecidableEq, Repr

/-- The `WrapQuery` transform the runtime attaches when a `selectionSet` is
supplied: grafts the (normalized) selection at `path` and post-processes the
result with `transformer`. `normalizeSelectionSetParamOrFactory` returns a
closure capturing the parameter; the closure body runs outside this file,
so the transform records the captured parameter. -/
structure WrapQueryTransform where
  path : List String
  captured : SelectionSetParam
  transformer : ResultTransformer
deriving DecidableEq, Repr

/-- The delegation target: either a subschema config taken from
`stitchingInfo.subschemaMap` (an opaque token) or the raw source itself. -/
inductive SubschemaConfig where
  | ofRawSource (name : String)
  | stitched (id : Nat)
deriving DecidableEq, Repr

/-- A key of `stitchingInfo.subschemaMap`: a subschema config whose `name`
property may be absent (the runtime reads `(subschemaConfig as any).name`). -/
structure SubschemaMapKey where
  name : Option String
deriving DecidableEq, Repr

/-- `stitchingInfo`, as far as the runtime inspects it: the iteration order
of `subschemaMap` with each key's `name`. -/
structure StitchingInfo where
  subschemaMap : List (SubschemaMapKey × SubschemaConfig)
deriving DecidableEq, Repr

/-- Resolution of `rawSourceSubSchemaConfig` (get-mesh.ts lines 164-176):
with `stitchingInfo` present, scan `subschemaMap` for the first key whose
`name` equals the raw source's name (`break` on the first match); the
variable stays `undefined` (`none`) when nothing matches. Without
`stitchingInfo`, the raw source itself is the target. -/
def resolveRawSourceSubschemaConfig (stitchingInfo : Option StitchingInfo)
    (rawSourceName : String) : Option SubschemaConfig :=
  match stitchingInfo with
  | some si => findMatch si.subschemaMap rawSourceName
  | none => some (.ofRawSource rawSourceName)
where
  findMatch : List (SubschemaMapKey × SubschemaConfig) → String → Option SubschemaConfig
    | [], _ => none
    | (k, sub) :: rest, nm =>
        if k.name = some nm then some sub else findMatch rest nm

/-- The resolve-info shape constructed and inspected by the runtime. Fields
the runtime only forwards (`fragments`, `variableValues`, `cacheControl`)
are kept as inert data; `rootValue` is the pass-through caller value. -/
structure ResolveInfo (α : Type) where
  fieldName : String
  fieldNodes : List FieldNode
  returnType : GType
  parentTypeName : String
  pathTypename : String
  pathKey : String
  schemaId : Nat
  fragments : List (String × Nat) := []
  rootValue : α
  operationType : OperationType
  operationSelections : List SelectionNode := []
  variableValues : List (String × Nat) := []
deriving DecidableEq, Repr

/-- The synthetic minimal resolve-info used when the caller omits `info`
(get-mesh.ts lines 199-225): empty field nodes, the named return type, the
owning root type, a one-level path, the transformed schema, empty
fragment/variable maps and an operation node with an empty selection set. -/
def defaultResolveInfo (α : Type) (fieldName : String) (namedReturnType : GType)
    (rootTypeName : String) (schemaId : Nat) (operationType : OperationType)
    (root : α) : ResolveInfo α :=
  { fieldName := fieldName
    fieldNodes := []
    returnType := namedReturnType
    parentTypeName := rootTypeName
    pathTypename := rootTypeName
    pathKey := fieldName
    schemaId := schemaId
    fragments := []
    rootValue := root
    operationType := operationType
    operationSelections := []
    variableValues := [] }

/-- Selection-count detection (get-mesh.ts lines 258-263): sum, over every
field node whose `selectionSet` is non-null, the number of its selections. -/
def selectionCountOf (α : Type) (info : ResolveInfo α) : Nat :=
  info.fieldNodes.foldl
    (fun acc fn =>
      match fn.selectionSet with
      | some ss => acc + ss.selections.length
      | none => acc)
    0

/-- The `__typename` patch (get-mesh.ts lines 270-290): replace the first
field node (spreading `info.fieldNodes[0]`, which is `undefined` when the
list is empty) with one whose selection set is exactly `{ __typename }`,
and keep `info.fieldNodes.slice(1)`. -/
def patchFieldNodes (fns : List FieldNode) : List FieldNode :=
  { fns.headD {} with
      selectionSet := some { selections := [SelectionNode.field "__typename"] } }
    :: fns.drop 1

/-- `commonDelegateOptions` (get-mesh.ts lines 244-252), with the optional
`returnType` override. `schema` is the resolved subschema config, which the
runtime never checks for `undefined`. -/
structure DelegateOptionsCore (α : Type) where
  schema : Option SubschemaConfig
  rootValue : α
  operation : OperationType
  fieldName : String
  context : α
  transformedSchemaId : Nat
  info : ResolveInfo α
  returnType : Option GType := none
deriving DecidableEq, Repr

/-- The delegation the callable performs: `batchDelegateToSchema` with the
batching triple, or `delegateToSchema` with the caller's `args` attached.
Either may carry the `WrapQuery` transform. -/
inductive DelegationAction (α : Type) where
  | batch (opts : DelegateOptionsCore α) (key : Option String)
      (argsFromKeys : Nat) (valuesFromResults : Option Nat)
      (transforms : Option WrapQueryTransform)
  | single (opts : DelegateOptionsCore α) (args : α)
      (transforms : Option WrapQueryTransform)
deriving DecidableEq, Repr

/-- The argument object of one in-context callable invocation
(get-mesh.ts lines 195-239). `argsFromKeys` and `valuesFromResults` are
opaque function tokens; `info = none` means the caller omitted it. -/
structure CallArgs (α : Type) where
  root : α
  args : α
  context : α
  info : Option (ResolveInfo α) := none
  selectionSet : Option SelectionSetParam := none
  key : Option String := none
  argsFromKeys : Option Nat := none
  valuesFromResults : Option Nat := none
deriving DecidableEq, Repr

/-- The constants one in-context callable captures at build time: one per
(source, root operation type, field) triple. -/
structure CallableEnv where
  sourceName : String
  rootTypeName : String
  fieldName : String
  operationType : OperationType
  fieldType : GType
  transformedSchemaId : Nat
  subschemaConfig : Option SubschemaConfig
deriving DecidableEq, Repr

/-- The configuration-error message of get-mesh.ts line 267. -/
def missingSelectionSetMessage (sourceName rootTypeName fieldName : String) : String :=
  "You have to provide \x27selectionSet\x27 for context." ++ sourceName ++ "." ++
    rootTypeName ++ "." ++ fieldName

/-- The `WrapQuery` transform attached when `selectionSet` is truthy
(get-mesh.ts lines 300-305 and 312-317): path `[fieldName]`, the normalized
selection-set factory, and the given result transformer. -/
def mkWrapQueryTransform (selectionSet : Option SelectionSetParam)
    (fieldName : String) (transformer : ResultTransformer) :
    Option WrapQueryTransform :=
  match selectionSet with
  | some p =>
      if ssTruthy (some p) then
        some { path := [fieldName], captured := p, transformer := transformer }
      else none
  | none => none

/-- The resolve-info one invocation works with: the caller's `info`, or the
synthetic minimal one when omitted. -/
def callInfo (α : Type) (env : CallableEnv) (call : CallArgs α) : ResolveInfo α :=
  call.info.getD
    (defaultResolveInfo α env.fieldName (getNamedType env.fieldType)
      env.rootTypeName env.transformedSchemaId env.operationType call.root)

/-- `commonDelegateOptions` as assembled by get-mesh.ts lines 244-256: the
captured constants, the caller's pass-through values, and the `returnType`
override, which line 254 assigns whenever `typeof selectionSet` is not
`'function'` (that covers absent, text and AST selection sets alike). -/
def commonDelegateOptions (α : Type) (env : CallableEnv) (call : CallArgs α) :
    DelegateOptionsCore α :=
  { schema := env.subschemaConfig
    rootValue := call.root
    operation := env.operationType
    fieldName := env.fieldName
    context := call.context
    transformedSchemaId := env.transformedSchemaId
    info := callInfo α env call
    returnType :=
      if !ssIsFunction call.selectionSet then some env.fieldType else none }

/-- The options after the zero-selection `__typename` patch of get-mesh.ts
lines 270-290: a new info record (the supplied one is not mutated) whose
field-node list is patched. -/
def patchedDelegateOptions (α : Type) (env : CallableEnv) (call : CallArgs α) :
    DelegateOptionsCore α :=
  { commonDelegateOptions α env call with
      info :=
        { callInfo α env call with
            fieldNodes := patchFieldNodes (callInfo α env call).fieldNodes } }

/-- The final dispatch of get-mesh.ts lines 293-319: `batchDelegateToSchema`
when `key && argsFromKeys`, otherwise `delegateToSchema` with the caller's
`args`; either path attaches the `WrapQuery` transform when `selectionSet`
is truthy (the batched path always post-processes with `identical`, the
single path with `valuesFromResults || identical`). -/
def inContextDispatch (α : Type) (common : DelegateOptionsCore α)
    (call : CallArgs α) (fieldName : String) : DelegationAction α :=
  if keyTruthy call.key && call.argsFromKeys.isSome then
    DelegationAction.batch common call.key (call.argsFromKeys.getD 0)
      call.valuesFromResults
      (mkWrapQueryTransform call.selectionSet fieldName ResultTransformer.identical)
  else
    DelegationAction.single common call.args
      (mkWrapQueryTransform call.selectionSet fieldName
        (match call.valuesFromResults with
          | some f => ResultTransformer.ofToken f
          | none => ResultTransformer.identical))

/-- One in-context callable (get-mesh.ts lines 195-320). Mirrors the arrow
function stored at `rawSourceContext[rootType.name][fieldName]`: builds the
common delegate options, enforces the selection-set requirement for
composite return types when the supplied info carries zero selections
(throwing the configuration error when `selectionSet` is falsy), patches
the forwarded info with `__typename` in that situation, and dispatches to
batched or single delegation. -/
def inContextCallable (α : Type) (env : CallableEnv) (call : CallArgs α) :
    Except String (DelegationAction α) :=
  if !isLeafType (getNamedType env.fieldType)
      && (selectionCountOf α (callInfo α env call) == 0) then
    if !ssTruthy call.selectionSet then
      Except.error
        (missingSelectionSetMessage env.sourceName env.rootTypeName env.fieldName)
    else
      Except.ok (inContextDispatch α (patchedDelegateOptions α env call) call env.fieldName)
  else
    Except.ok (inContextDispatch α (commonDelegateOptions α env call) call env.fieldName)

/-! ### Source registry (get-mesh.ts lines 89-135) -/

/-- A schema value; applying transforms is an external call
(`applySchemaTransforms` lives in `@graphql-mesh/utils`), so its result is
recorded symbolically. -/
inductive SchemaRepr where
  | base (id : Nat)
  | transformed (s : SchemaRepr) (transformIds : List Nat)
deriving DecidableEq, Repr

/-- A configured transform. `@graphql-mesh/utils`'s `groupTransforms` (the
file is not under src/) partitions a source's transforms into wrap and
no-wrap transforms; per the spec of the registry, each transform is either
a wrap transform or a bare (no-wrap) transform, here a flag. -/
structure MeshTransform where
  id : Nat
  noWrap : Bool
deriving DecidableEq, Repr

/-- Modelled from the spec: `groupTransforms` (exported by
`@graphql-mesh/utils`, source not under src/) partitions the configured
transforms of a source into wrap transforms and no-wrap transforms. -/
def groupTransforms (transforms : List MeshTransform) :
    List MeshTransform × List MeshTransform :=
  (transforms.filter (fun t => !t.noWrap), transforms.filter (fun t => t.noWrap))

/-- What `handler.getMeshSource()` resolves to: `{schema, executor,
contextVariables?, batch?}`. -/
structure MeshSourceOutput where
  schema : SchemaRepr
  executor : Nat
  contextVariables : Option (List String) := none
  batch : Option Bool := none
deriving DecidableEq, Repr

instance {ε σ : Type} [DecidableEq ε] [DecidableEq σ] : DecidableEq (Except ε σ) :=
  fun a b =>
    match a, b with
    | Except.ok x, Except.ok y =>
        if h : x = y then isTrue (by rw [h])
        else isFalse (by intro hh; cases hh; exact h rfl)
    | Except.error x, Except.error y =>
        if h : x = y then isTrue (by rw [h])
        else isFalse (by intro hh; cases hh; exact h rfl)
    | Except.ok _, Except.error _ => isFalse (by intro hh; cases hh)
    | Except.error _, Except.ok _ => isFalse (by intro hh; cases hh)

/-- One configured source: its name, its transforms, its merge config token
and the outcome of invoking its handler (the handler either resolves with a
`MeshSourceOutput` or rejects). -/
structure SourceConfig where
  name : String
  transforms : List MeshTransform
  merge : Option Nat := none
  handlerId : Nat := 0
  handlerOutcome : Except Nat MeshSourceOutput
deriving DecidableEq, Repr

/-- The `RawSourceOutput` record pushed by the registry loop
(get-mesh.ts lines 114-123). -/
structure RawSource where
  name : String
  schema : SchemaRepr
  executor : Nat
  transforms : Option (List MeshTransform)
  contextVariables : List String
  handlerId : Nat
  batch : Bool
  merge : Option Nat
deriving DecidableEq, Repr

/-- The body of one registry iteration after the handler resolved
(get-mesh.ts lines 96-123): group the transforms; when there are no wrap
transforms and at least one no-wrap transform, apply the no-wrap transforms
immediately and leave `transforms` undefined; otherwise keep the full
configured list. `batch` defaults to `true`, `contextVariables` to `{}`. -/
def mkRawSource (cfg : SourceConfig) (out : MeshSourceOutput) : RawSource :=
  let grouped := groupTransforms cfg.transforms
  let wrapTransforms := grouped.1
  let noWrapTransforms := grouped.2
  let applied :=
    if wrapTransforms.isEmpty && !noWrapTransforms.isEmpty then
      (SchemaRepr.transformed out.schema (noWrapTransforms.map (fun t => t.id)), none)
    else
      (out.schema, some cfg.transforms)
  { name := cfg.name
    schema := applied.1
    executor := out.executor
    transforms := applied.2
    contextVariables := out.contextVariables.getD []
    handlerId := cfg.handlerId
    batch := out.batch.getD true
    merge := cfg.merge }

/-- The observable outcome of the registry loop: the `rawSources` array in
push order, the list of sources whose load attempt ran to completion (every
scheduled source, failures included), and the `failed` flag. -/
structure LoadOutcome where
  rawSources : List RawSource
  processed : List String
  failed : Bool
deriving DecidableEq, Repr

/-- One settled handler of the registry loop (get-mesh.ts lines 95-127):
a resolved handler pushes its `RawSource` onto `rawSources`; a rejected one
logs and sets the shared `failed` flag. Either way the attempt completes. -/
def loadStep (sources : List SourceConfig) (acc : LoadOutcome) (i : Nat) :
    LoadOutcome :=
  match sources[i]? with
  | none => acc
  | some cfg =>
      match cfg.handlerOutcome with
      | Except.ok out =>
          { acc with
              rawSources := acc.rawSources ++ [mkRawSource cfg out]
              processed := acc.processed ++ [cfg.name] }
      | Except.error _ =>
          { acc with
              processed := acc.processed ++ [cfg.name]
              failed := true }

/-- The `Promise.allSettled` registry loop (get-mesh.ts lines 90-129).
`completionOrder` lists the indices of `sources` in the order their
handlers settle; `Promise.allSettled` waits for every entry, so the fold
consumes the whole schedule before the `failed` check runs. -/
def loadSources (sources : List SourceConfig) (completionOrder : List Nat) :
    LoadOutcome :=
  completionOrder.foldl (loadStep sources)
    { rawSources := [], processed := [], failed := false }

/-- The `RawSource` record (if any) that settling source `i` pushes. -/
def rawOfIndex (sources : List SourceConfig) (i : Nat) : Option RawSource :=
  match sources[i]? with
  | some cfg =>
      match cfg.handlerOutcome with
      | Except.ok out => some (mkRawSource cfg out)
      | Except.error _ => none
  | none => none

/-- The name of configured source `i`. -/
def nameOfIndex (sources : List SourceConfig) (i : Nat) : Option String :=
  (sources[i]?).map SourceConfig.name

/-- Whether settling source `i` marks the load as failed. -/
def failsAtIndex (sources : List SourceConfig) (i : Nat) : Bool :=
  match sources[i]? with
  | some cfg =>
      match cfg.handlerOutcome with
      | Except.error _ => true
      | Except.ok _ => false
  | none => false

/-- The aggregate registry error message (get-mesh.ts lines 131-135). -/
def schemasFailedMessage : String :=
  "Schemas couldn\x27t be generated successfully. Check for the logs by running Mesh with DEBUG=1 environmental variable to get more verbose output."

/-- The registry phase of `getMesh`: run every load attempt to completion,
then throw the aggregate error when any attempt failed, otherwise hand the
raw sources on to the merger. -/
def registryPhase (sources : List SourceConfig) (completionOrder : List Nat) :
    Except String (List RawSource) :=
  let outcome := loadSources sources completionOrder
  if outcome.failed then Except.error schemasFailedMessage
  else Except.ok outcome.rawSources

/-! ### Enveloped-pipeline memoization (get-mesh.ts lines 66-71, 355-356, 375-376) -/

/-- One `{execute, subscribe, contextFactory, parse}` bundle returned by
`getEnveloped(initialContext)`; `envelop` produces a fresh object per call,
bound to the context it was given, so an instance records a fresh id, the
plugin-list identity and the context identity it was built from. -/
structure BoundPipeline where
  instanceId : Nat
  pluginsId : Nat
  boundContextId : Nat
deriving DecidableEq, Repr

/-- Entry lookup of a `WeakMap` keyed by object identity (`memoize1`). -/
def assocFind {β : Type} : List (Nat × β) → Nat → Option β
  | [], _ => none
  | (k, v) :: rest, key => if k = key then some v else assocFind rest key

/-- `WeakMap.set` for the model: replace the entry when present, otherwise
prepend it. -/
def assocInsert {β : Type} : List (Nat × β) → Nat → β → List (Nat × β)
  | [], key, v => [(key, v)]
  | (k, w) :: rest, key, v =>
      if k = key then (key, v) :: rest else (k, w) :: assocInsert rest key v

/-- The state behind `memoizedGetEnvelopedFactory`: the outer `memoize1`
cache keyed by plugin-list identity, each entry holding the inner
`memoize1` cache keyed by context identity; `nextInstanceId` supplies the
fresh identity of each newly built pipeline. -/
structure EnvelopedFactoryState where
  outer : List (Nat × List (Nat × BoundPipeline))
  nextInstanceId : Nat
deriving DecidableEq, Repr

/-- The inner `memoize1(getEnvelopedByContext)` call: return the cached
pipeline for this context identity, or build a fresh one and cache it. -/
def getEnvelopedByContext (pluginsId : Nat) (inner : List (Nat × BoundPipeline))
    (next : Nat) (ctxId : Nat) :
    BoundPipeline × List (Nat × BoundPipeline) × Nat :=
  match assocFind inner ctxId with
  | some p => (p, inner, next)
  | none =>
      let p : BoundPipeline :=
        { instanceId := next, pluginsId := pluginsId, boundContextId := ctxId }
      (p, assocInsert inner ctxId p, next + 1)

/-- `memoizedGetEnvelopedFactory(plugins)` followed by
`getEnveloped(contextValue)` as performed by `meshExecute` /
`meshSubscribe`: fetch (or create) the per-plugin-list factory, then the
per-context bound pipeline. -/
def envelopedFor (st : EnvelopedFactoryState) (pluginsId ctxId : Nat) :
    BoundPipeline × EnvelopedFactoryState :=
  let inner := (assocFind st.outer pluginsId).getD []
  let r := getEnvelopedByContext pluginsId inner st.nextInstanceId ctxId
  (r.1, { outer := assocInsert st.outer pluginsId r.2.1, nextInstanceId := r.2.2 })

/-- A gateway instance fixes one plugin-list identity at build time. -/
structure Gateway where
  pluginsId : Nat
deriving DecidableEq, Repr

/-- The pipeline-selection step of `meshExecute` and `meshSubscribe`
(get-mesh.ts lines 355-356 and 375-376): both destructure the bundle
obtained from `memoizedGetEnvelopedFactory(plugins)(contextValue)`. -/
def meshExecutePipeline (gw : Gateway) (st : EnvelopedFactoryState) (ctxId : Nat) :
    BoundPipeline × EnvelopedFactoryState :=
  envelopedFor st gw.pluginsId ctxId

/-- Well-formedness of the outer cache list: every cached pipeline is bound
to exactly the context identity and plugin-list identity it is stored
under. -/
def WFOuter (outer : List (Nat × List (Nat × BoundPipeline))) : Prop :=
  ∀ pid inner, assocFind outer pid = some inner →
    ∀ cid p, assocFind inner cid = some p →
      p.boundContextId = cid ∧ p.pluginsId = pid

/-- Cache well-formedness of a factory state. -/
def EnvelopedWF (st : EnvelopedFactoryState) : Prop :=
  WFOuter st.outer

/-! ### Requester adapter (get-mesh.ts lines 58-64, 388-418) -/

/-- An operation definition of a parsed document. -/
structure OperationDef where
  operation : OperationType
  name : Option String := none
deriving DecidableEq, Repr

/-- A definition node: an operation definition or anything else
(fragment definitions etc.). -/
inductive DefinitionNode where
  | operationDef (d : OperationDef)
  | otherDef (id : Nat)
deriving DecidableEq, Repr

/-- A parsed document: the `memoize1` identity plus its definitions. -/
structure Document where
  id : Nat
  definitions : List DefinitionNode
deriving DecidableEq, Repr

/-- Loop body of graphql-js `getOperationAST`: with no requested operation
name, a second operation definition makes the result `null` immediately;
with a requested name, return the first operation definition carrying it. -/
def getOperationASTGo (operationName : Option String) :
    List DefinitionNode → Option OperationDef → Option OperationDef
  | [], acc => acc
  | DefinitionNode.operationDef d :: rest, acc =>
      (match operationName with
        | none =>
            match acc with
            | some _ => none
            | none => getOperationASTGo operationName rest (some d)
        | some nm =>
            if d.name = some nm then some d
            else getOperationASTGo operationName rest acc)
  | DefinitionNode.otherDef _ :: rest, acc => getOperationASTGo operationName rest acc

/-- graphql-js `getOperationAST(document, operationName)`; the runtime
always passes `undefined` for the name. -/
def getOperationAST (doc : Document) (operationName : Option String) :
    Option OperationDef :=
  getOperationASTGo operationName doc.definitions none

/-- The error message of get-mesh.ts line 61. -/
def invalidOperationMessage : String :=
  "Must provide document with a valid operation"

/-- The `memoize1` cache around the operation-kind inspection, plus a count
of how many times the uncached inspection body actually ran. -/
structure OpTypeMemoState where
  entries : List (Nat × OperationType)
  computeCount : Nat := 0
deriving DecidableEq, Repr

/-- `memoizedGetOperationType` (get-mesh.ts lines 58-64): on a cache miss,
run `getOperationAST(document, undefined)`; throw when it yields nothing,
otherwise cache the operation kind under the document's identity. A throw
caches nothing. -/
def memoizedGetOperationType (st : OpTypeMemoState) (doc : Document) :
    Except String OperationType × OpTypeMemoState :=
  match assocFind st.entries doc.id with
  | some t => (Except.ok t, st)
  | none =>
      let st1 : OpTypeMemoState :=
        { st with computeCount := st.computeCount + 1 }
      match getOperationAST doc none with
      | none => (Except.error invalidOperationMessage, st1)
      | some opDef =>
          (Except.ok opDef.operation,
            { st1 with entries := assocInsert st1.entries doc.id opDef.operation })

/-- One execution result as inspected by the requester: `result?.data` and
`result?.errors` (both may be absent). -/
structure ExecResult (α ε : Type) where
  data : Option α := none
  errors : Option (List ε) := none
deriving DecidableEq, Repr

/-- `result?.errors?.length` as a boolean condition. -/
def hasErrors {α ε : Type} (r : ExecResult α ε) : Bool :=
  match r.errors with
  | some es => !es.isEmpty
  | none => false

/-- What the requester hands back for one result: either the `data` payload
or one `AggregateError` built from the result's error list — by
construction never both. -/
inductive CollapsedResult (α ε : Type) where
  | payload (d : Option α)
  | aggregateError (errors : List ε)
deriving DecidableEq, Repr

/-- The data/error collapsing applied to every result (get-mesh.ts
lines 397-400, 403-406, 412-415): a non-empty error list becomes one
`AggregateError` value, otherwise the `data` payload is returned. -/
def collapseResult {α ε : Type} (r : ExecResult α ε) : CollapsedResult α ε :=
  if hasErrors r then CollapsedResult.aggregateError (r.errors.getD [])
  else CollapsedResult.payload r.data

/-- What `meshSubscribe` resolves to: a single result or an async iterable
of results (modelled as the list of values it yields). -/
inductive SubscribeOutcome (α ε : Type) where
  | stream (results : List (ExecResult α ε))
  | single (r : ExecResult α ε)
deriving DecidableEq, Repr

/-- The value a requester call resolves to: a mapped async iterable
(`mapAsyncIterator` transforms each yielded value lazily) or one collapsed
value. -/
inductive RequesterOutput (α ε : Type) where
  | stream (items : List (CollapsedResult α ε))
  | single (item : CollapsedResult α ε)
deriving DecidableEq, Repr

/-- The execution-pipeline calls a requester invocation makes. -/
inductive PipelineCall where
  | subscribeCall
  | executeCall
deriving DecidableEq, Repr

/-- Stand-ins for the merged-schema pipeline: what `meshSubscribe` /
`meshExecute` would resolve to for this document, variables and context. -/
structure PipelineOracles (α ε : Type) where
  subscribeOutcome : SubscribeOutcome α ε
  executeResult : ExecResult α ε
deriving DecidableEq, Repr

/-- `meshSdkRequester` (get-mesh.ts lines 389-417): inspect the document's
operation kind through the memoized inspection (propagating its error
without touching the pipeline), route subscriptions to `meshSubscribe` and
everything else to `meshExecute`, and collapse every produced result.
Returns the outcome, the updated memo state and the pipeline calls made. -/
def meshSdkRequester (α ε : Type) (st : OpTypeMemoState) (doc : Document)
    (oracles : PipelineOracles α ε) :
    Except String (RequesterOutput α ε) × OpTypeMemoState × List PipelineCall :=
  match memoizedGetOperationType st doc with
  | (Except.error e, st1) => (Except.error e, st1, [])
  | (Except.ok opType, st1) =>
      if opType = OperationType.subscription then
        match oracles.subscribeOutcome with
        | SubscribeOutcome.stream rs =>
            (Except.ok (RequesterOutput.stream (rs.map collapseResult)), st1,
              [PipelineCall.subscribeCall])
        | SubscribeOutcome.single r =>
            (Except.ok (RequesterOutput.single (collapseResult r)), st1,
              [PipelineCall.subscribeCall])
      else
        (Except.ok (RequesterOutput.single (collapseResult oracles.executeResult)),
          st1, [PipelineCall.executeCall])

/-! ### Concrete instances used by witnesses and counterexamples -/

/-- A callable environment for a composite-return field
`context.Users.Query.user`. -/
def envUser : CallableEnv :=
  { sourceName := "Users"
    rootTypeName := "Query"
    fieldName := "user"
    operationType := OperationType.query
    fieldType := GType.nonNull (GType.objectType "User")
    transformedSchemaId := 7
    subschemaConfig := some (SubschemaConfig.stitched 3) }

/-- A callable environment for a leaf-return field
`context.Users.Query.userCount`. -/
def envCount : CallableEnv :=
  { sourceName := "Users"
    rootTypeName := "Query"
    fieldName := "userCount"
    operationType := OperationType.query
    fieldType := GType.scalar "Int"
    transformedSchemaId := 7
    subschemaConfig := some (SubschemaConfig.stitched 3) }

/-- A direct invocation with no ambient selection and no selection set. -/
def bareCall : CallArgs Nat :=
  { root := 0, args := 1, context := 2 }

/-- Whether a delegation action took the batched path. -/
def isBatchAction {α : Type} : DelegationAction α → Bool
  | DelegationAction.batch _ _ _ _ _ => true
  | DelegationAction.single _ _ _ => false

/-- The dispatch taken by a callable result: `some true` for the batched
path, `some false` for the single path, `none` when it threw. -/
def actionKind {α : Type} : Except String (DelegationAction α) → Option Bool
  | Except.ok a => some (isBatchAction a)
  | Except.error _ => none

/-- The delegate options an action carries. -/
def optsOf {α : Type} : DelegationAction α → DelegateOptionsCore α
  | DelegationAction.batch opts _ _ _ _ => opts
  | DelegationAction.single opts _ _ => opts

/-- The `returnType` override carried by a callable result (`none` outer
layer when the callable threw). -/
def returnTypeOfResult {α : Type} : Except String (DelegationAction α) → Option (Option GType)
  | Except.ok a => some (optsOf a).returnType
  | Except.error _ => none

/-- The subschema config a callable result delegates to (`none` outer layer
when the callable threw). -/
def schemaOfResult {α : Type} : Except String (DelegationAction α) → Option (Option SubschemaConfig)
  | Except.ok a => some (optsOf a).schema
  | Except.error _ => none

/-- A call supplying `key: ''` (empty string) together with `argsFromKeys`. -/
def emptyKeyCall : CallArgs Nat :=
  { root := 0, args := 1, context := 2, key := some "", argsFromKeys := some 5 }

/-- A call supplying the selection set as parseable text. -/
def textSelCall : CallArgs Nat :=
  { root := 0, args := 1, context := 2,
    selectionSet := some (SelectionSetParam.text "id") }

/-- A caller-supplied resolve-info whose single field node carries no
selection set (zero selections). -/
def infoNoSelections : ResolveInfo Nat :=
  { fieldName := "user"
    fieldNodes := [{ name := some "user" }]
    returnType := GType.objectType "User"
    parentTypeName := "Query"
    pathTypename := "Query"
    pathKey := "user"
    schemaId := 7
    rootValue := 0
    operationType := OperationType.query }

/-- Two succeeding source configs and one failing one. -/
def srcA : SourceConfig :=
  { name := "A", transforms := [],
    handlerOutcome := Except.ok { schema := SchemaRepr.base 1, executor := 10 } }

def srcB : SourceConfig :=
  { name := "B", transforms := [],
    handlerOutcome := Except.ok { schema := SchemaRepr.base 2, executor := 20 } }

def srcBad : SourceConfig :=
  { name := "Bad", transforms := [], handlerOutcome := Except.error 99 }

/-- Stitching info whose only subschema config is named `Posts`. -/
def unmatchedStitching : StitchingInfo :=
  { subschemaMap := [({ name := some "Posts" }, SubschemaConfig.stitched 9)] }

/-- The callable environment built for raw source `Users` under
`unmatchedStitching`: its captured subschema config is the (undefined)
resolution result. -/
def envUnmatched : CallableEnv :=
  { envCount with
      subschemaConfig := resolveRawSourceSubschemaConfig (some unmatchedStitching) "Users" }

/-- A document whose sole operation is a subscription. -/
def subDoc : Document :=
  { id := 11,
    definitions := [DefinitionNode.operationDef { operation := OperationType.subscription }] }

/-- A document with a single query operation. -/
def queryDoc : Document :=
  { id := 13,
    definitions := [DefinitionNode.operationDef { operation := OperationType.query }] }

/-- A document with no operation definition. -/
def emptyDoc : Document :=
  { id := 12, definitions := [DefinitionNode.otherDef 0] }

/-- Sample pipeline outcomes: a subscription stream yielding one clean
result and one errored result. -/
def sampleOracles : PipelineOracles Nat Nat :=
  { subscribeOutcome :=
      SubscribeOutcome.stream [{ data := some 1 }, { errors := some [4] }]
    executeResult := { data := some 2 } }

/-! ### Helper lemmas -/

theorem optsOf_dispatch (α : Type) (common : DelegateOptionsCore α)
    (call : CallArgs α) (fieldName : String) :
    optsOf (inContextDispatch α common call fieldName) = common := by
  unfold inContextDispatch
  split <;> rfl

theorem isBatchAction_dispatch (α : Type) (common : DelegateOptionsCore α)
    (call : CallArgs α) (fieldName : String) :
    isBatchAction (inContextDispatch α common call fieldName) =
      (keyTruthy call.key && call.argsFromKeys.isSome) := by
  unfold inContextDispatch
  split <;> simp_all [isBatchAction]

theorem inContextCallable_ok_dispatch (α : Type) (env : CallableEnv)
    (call : CallArgs α) (act : DelegationAction α)
    (h : inContextCallable α env call = Except.ok act) :
    ∃ common, act = inContextDispatch α common call env.fieldName := by
  unfold inContextCallable at h
  split at h <;> (try split at h) <;>
    first
      | (injection h with h; exact ⟨_, h.symm⟩)
      | (exact absurd h (by simp))

/-! ### C1 — selection-set requirement for composite-return callables -/

/-- C1 counterexample: the claim states that whenever a `selectionSet` is
supplied, no configuration error is thrown. Supplying the empty text
`selectionSet: ''` on the composite-return field `context.Users.Query.user`
(with a resolve-info carrying zero selections) still throws the
configuration error, because `if (!selectionSet)` treats the empty string
as absent. -/
theorem c1_claim_false_for_empty_text_selectionSet :
    ({ bareCall with selectionSet := some (SelectionSetParam.text "") } :
        CallArgs Nat).selectionSet.isSome = true ∧
    inContextCallable Nat envUser
        { bareCall with selectionSet := some (SelectionSetParam.text "") } =
      Except.error (missingSelectionSetMessage "Users" "Query" "user") := by
  constructor
  · rfl
  · decide

/-- C1 (amended): for every in-context callable for a field whose named
return type is composite, when the resolve-info in effect carries zero
selections summed over its field nodes: if the `selectionSet` argument is
absent or falsy (the empty text), the callable synchronously throws the
configuration error `You have to provide 'selectionSet' for
context.<source>.<rootType>.<field>`; if a truthy `selectionSet` is
supplied (non-empty text, a selection AST, or a factory), no error is
thrown and delegation proceeds. -/
theorem c1_selectionSet_requirement (α : Type) (env : CallableEnv)
    (call : CallArgs α)
    (hComposite : isLeafType (getNamedType env.fieldType) = false)
    (hCount : selectionCountOf α (callInfo α env call) = 0) :
    (ssTruthy call.selectionSet = false →
      inContextCallable α env call =
        Except.error
          (missingSelectionSetMessage env.sourceName env.rootTypeName env.fieldName)) ∧
    (ssTruthy call.selectionSet = true →
      inContextCallable α env call =
        Except.ok
          (inContextDispatch α (patchedDelegateOptions α env call) call env.fieldName)) := by
  constructor <;> intro h <;> simp [inContextCallable, hComposite, hCount, h]

/-- C1 witness: the amended theorem applied to `context.Users.Query.user`
invoked directly with `selectionSet: 'id'`. -/
theorem c1_selectionSet_requirement_witness :
    inContextCallable Nat envUser
        { bareCall with selectionSet := some (SelectionSetParam.text "id") } =
      Except.ok
        (inContextDispatch Nat
          (patchedDelegateOptions Nat envUser
            { bareCall with selectionSet := some (SelectionSetParam.text "id") })
          { bareCall with selectionSet := some (SelectionSetParam.text "id") }
          envUser.fieldName) :=
  (c1_selectionSet_requirement Nat envUser
      { bareCall with selectionSet := some (SelectionSetParam.text "id") }
      (by decide) (by decide)).2 (by decide)

/-! ### C2 — batched-vs-single dispatch rule -/

/-- C2 counterexample: the claim states the batched path is taken if and
only if both `key` and `argsFromKeys` are supplied. Supplying `key: ''`
(the empty string) together with `argsFromKeys` takes the single path,
because `if (key && argsFromKeys)` treats the empty string as falsy. -/
theorem c2_claim_false_for_empty_key :
    emptyKeyCall.key.isSome = true ∧ emptyKeyCall.argsFromKeys.isSome = true ∧
    actionKind (inContextCallable Nat envCount emptyKeyCall) = some false := by
  refine ⟨rfl, rfl, ?_⟩
  decide

/-- C2 (amended): for every invocation that reaches delegation, the
batched path (`batchDelegateToSchema`, carrying `key`, `argsFromKeys` and
`valuesFromResults`) is taken if and only if `key` is supplied as a truthy
(non-empty) string and `argsFromKeys` is supplied; in every other case —
including `key` supplied without `argsFromKeys`, and an empty-string `key`
with `argsFromKeys` — the single path (`delegateToSchema` with the caller's
`args` attached) is taken. -/
theorem c2_dispatch_rule (α : Type) (env : CallableEnv) (call : CallArgs α)
    (act : DelegationAction α)
    (h : inContextCallable α env call = Except.ok act) :
    (isBatchAction act = (keyTruthy call.key && call.argsFromKeys.isSome)) ∧
    (∀ opts k af v tr, act = DelegationAction.batch opts k af v tr →
      k = call.key ∧ af = call.argsFromKeys.getD 0 ∧ v = call.valuesFromResults) ∧
    (∀ opts a tr, act = DelegationAction.single opts a tr → a = call.args) := by
  obtain ⟨common, rfl⟩ := inContextCallable_ok_dispatch α env call act h
  refine ⟨isBatchAction_dispatch α common call env.fieldName, ?_, ?_⟩
  · intro opts k af v tr hact
    unfold inContextDispatch at hact
    split at hact
    · injection hact with h1 h2 h3 h4 h5
      exact ⟨h2.symm, h3.symm, h4.symm⟩
    · simp at hact
  · intro opts a tr hact
    unfold inContextDispatch at hact
    split at hact
    · simp at hact
    · injection hact with h1 h2 h3
      exact h2.symm

/-- C2 witness: the amended theorem applied to a batched invocation of the
leaf-return field `context.Users.Query.userCount` with `key: 'a'` and an
`argsFromKeys` callback. -/
theorem c2_dispatch_rule_witness :
    isBatchAction
        (inContextDispatch Nat
          (commonDelegateOptions Nat envCount
            { bareCall with key := some "a", argsFromKeys := some 5 })
          { bareCall with key := some "a", argsFromKeys := some 5 }
          envCount.fieldName) =
      (keyTruthy ({ bareCall with key := some "a", argsFromKeys := some 5 } :
          CallArgs Nat).key &&
        ({ bareCall with key := some "a", argsFromKeys := some 5 } :
          CallArgs Nat).argsFromKeys.isSome) :=
  (c2_dispatch_rule Nat envCount
      { bareCall with key := some "a", argsFromKeys := some 5 }
      (inContextDispatch Nat
        (commonDelegateOptions Nat envCount
          { bareCall with key := some "a", argsFromKeys := some 5 })
        { bareCall with key := some "a", argsFromKeys := some 5 }
        envCount.fieldName)
      (by decide)).1

/-! ### C3 — returnType override rule -/

/-- C3 counterexample: the claim states that supplying a `selectionSet` in
any form (text, AST, or factory) omits the `returnType` override. Supplying
it as text on `context.Users.Query.userCount` still carries the field's
declared return type, because line 254 only checks
`typeof selectionSet !== 'function'`. -/
theorem c3_claim_false_for_text_selectionSet :
    textSelCall.selectionSet.isSome = true ∧
    returnTypeOfResult (inContextCallable Nat envCount textSelCall) =
      some (some (GType.scalar "Int")) := by
  refine ⟨rfl, ?_⟩
  decide

/-- C3 (amended): for every invocation that reaches delegation, the
delegation options carry the field's full declared return type as
`returnType` exactly when the supplied `selectionSet` is not a factory
function — that is, when it is absent, parseable text, or a selection AST;
the override is omitted only when `selectionSet` is a factory function. -/
theorem c3_returnType_rule (α : Type) (env : CallableEnv) (call : CallArgs α)
    (act : DelegationAction α)
    (h : inContextCallable α env call = Except.ok act) :
    (optsOf act).returnType =
      (if ssIsFunction call.selectionSet then none else some env.fieldType) := by
  unfold inContextCallable at h
  split at h
  · split at h
    · simp at h
    · injection h with h
      subst h
      rw [optsOf_dispatch]
      cases hss : ssIsFunction call.selectionSet <;>
        simp [patchedDelegateOptions, commonDelegateOptions, hss]
  · injection h with h
    subst h
    rw [optsOf_dispatch]
    cases hss : ssIsFunction call.selectionSet <;>
      simp [commonDelegateOptions, hss]

/-- C3 witness: the amended theorem applied to a factory-function
`selectionSet` on `context.Users.Query.userCount`: the override is omitted. -/
theorem c3_returnType_rule_witness :
    (optsOf
        (inContextDispatch Nat
          (commonDelegateOptions Nat envCount
            { bareCall with selectionSet := some (SelectionSetParam.factory 3) })
          { bareCall with selectionSet := some (SelectionSetParam.factory 3) }
          envCount.fieldName)).returnType =
      (if ssIsFunction ({ bareCall with
            selectionSet := some (SelectionSetParam.factory 3) } :
              CallArgs Nat).selectionSet
        then none else some envCount.fieldType) :=
  c3_returnType_rule Nat envCount
    { bareCall with selectionSet := some (SelectionSetParam.factory 3) }
    (inContextDispatch Nat
      (commonDelegateOptions Nat envCount
        { bareCall with selectionSet := some (SelectionSetParam.factory 3) })
      { bareCall with selectionSet := some (SelectionSetParam.factory 3) }
      envCount.fieldName)
    (by decide)

/-! ### C4 / C5 — registry ordering and failure aggregation -/

theorem loadSources_spec (sources : List SourceConfig) (order : List Nat) :
    loadSources sources order =
      { rawSources := order.filterMap (rawOfIndex sources)
        processed := order.filterMap (nameOfIndex sources)
        failed := order.any (failsAtIndex sources) } := by
  have key : ∀ (order : List Nat) (acc : LoadOutcome),
      order.foldl (loadStep sources) acc =
        { rawSources := acc.rawSources ++ order.filterMap (rawOfIndex sources)
          processed := acc.processed ++ order.filterMap (nameOfIndex sources)
          failed := acc.failed || order.any (failsAtIndex sources) } := by
    intro order
    induction order with
    | nil => intro acc; simp
    | cons i rest ih =>
        intro acc
        simp only [List.foldl_cons, ih, List.filterMap_cons, List.any_cons]
        cases hcfg : sources[i]? with
        | none => simp [loadStep, rawOfIndex, nameOfIndex, failsAtIndex, hcfg]
        | some cfg =>
            cases hout : cfg.handlerOutcome with
            | ok out =>
                simp [loadStep, rawOfIndex, nameOfIndex, failsAtIndex, hcfg, hout]
            | error e =>
                simp [loadStep, rawOfIndex, nameOfIndex, failsAtIndex, hcfg, hout]
  rw [loadSources, key]
  simp

/-- C4 counterexample: two sources `A` then `B`, both of whose handlers
succeed, with `B`'s handler completing first: the registry returns
`[B, A]`, the completion order, not the configuration order `[A, B]`. -/
theorem c4_claim_false_completion_order :
    ([srcA, srcB].map SourceConfig.name = ["A", "B"]) ∧
    List.Perm [1, 0] (List.range 2) ∧
    ((loadSources [srcA, srcB] [1, 0]).rawSources.map RawSource.name = ["B", "A"]) ∧
    ("B" :: "A" :: [] : List String) ≠ ["A", "B"] := by
  refine ⟨rfl, by decide, by decide, by decide⟩

/-- C4 (amended): when every configured source's handler succeeds, the
registry returns one `RawSource` per source in handler-completion order
(the order the `rawSources.push` calls run), which coincides with the
configuration order only when the handlers complete in configuration
order. In general the pushed list is the completion schedule filtered
through each source's record. -/
theorem c4_completion_order (sources : List SourceConfig) (order : List Nat) :
    (loadSources sources order).rawSources = order.filterMap (rawOfIndex sources) := by
  rw [loadSources_spec]

/-- C4 witness: the amended theorem at the two-source registry with
completion schedule `[1, 0]`. -/
theorem c4_completion_order_witness :
    (loadSources [srcA, srcB] [1, 0]).rawSources =
      [1, 0].filterMap (rawOfIndex [srcA, srcB]) :=
  c4_completion_order [srcA, srcB] [1, 0]

/-- C5: for every set of configured sources and every completion schedule
(a permutation of the source indices): every source's load attempt runs to
completion regardless of other failures (its name appears in the processed
trace); gateway construction fails with the one aggregate error exactly
when at least one handler threw, and the check runs only after the whole
schedule has been folded; when no handler throws, construction proceeds
past the registry with the loaded records; and every succeeding source's
record is pushed even when another source failed (no short-circuit). -/
theorem c5_failure_aggregation (sources : List SourceConfig) (order : List Nat)
    (hperm : order.Perm (List.range sources.length)) :
    (∀ cfg ∈ sources, cfg.name ∈ (loadSources sources order).processed) ∧
    (registryPhase sources order = Except.error schemasFailedMessage ↔
      ∃ cfg ∈ sources, ∃ e, cfg.handlerOutcome = Except.error e) ∧
    ((∀ cfg ∈ sources, ∀ e, cfg.handlerOutcome ≠ Except.error e) →
      registryPhase sources order = Except.ok (loadSources sources order).rawSources) ∧
    (∀ (i : Nat) (cfg : SourceConfig) (out : MeshSourceOutput),
      sources[i]? = some cfg → cfg.handlerOutcome = Except.ok out →
      mkRawSource cfg out ∈ (loadSources sources order).rawSources) := by
  have hmemOrder : ∀ i : Nat, i ∈ order ↔ i < sources.length := by
    intro i
    rw [hperm.mem_iff, List.mem_range]
  have hfail : (order.any (failsAtIndex sources) = true) ↔
      (∃ cfg ∈ sources, ∃ e, cfg.handlerOutcome = Except.error e) := by
    rw [List.any_eq_true]
    constructor
    · rintro ⟨i, hi, hf⟩
      have hlt := (hmemOrder i).mp hi
      simp only [failsAtIndex, List.getElem?_eq_getElem hlt] at hf
      refine ⟨sources[i], List.getElem_mem hlt, ?_⟩
      cases hout : sources[i].handlerOutcome with
      | ok out => rw [hout] at hf; simp at hf
      | error e => exact ⟨e, rfl⟩
    · rintro ⟨cfg, hcfg, e, he⟩
      obtain ⟨i, hlt, hEq⟩ := List.mem_iff_getElem.mp hcfg
      refine ⟨i, (hmemOrder i).mpr hlt, ?_⟩
      simp [failsAtIndex, List.getElem?_eq_getElem hlt, hEq, he]
  have hreg : registryPhase sources order =
      (if order.any (failsAtIndex sources) then Except.error schemasFailedMessage
        else Except.ok (order.filterMap (rawOfIndex sources))) := by
    simp only [registryPhase, loadSources_spec]
  refine ⟨?_, ?_, ?_, ?_⟩
  · intro cfg hcfg
    obtain ⟨i, hlt, hEq⟩ := List.mem_iff_getElem.mp hcfg
    rw [loadSources_spec]
    refine List.mem_filterMap.mpr ⟨i, (hmemOrder i).mpr hlt, ?_⟩
    simp [nameOfIndex, List.getElem?_eq_getElem hlt, hEq]
  · rw [hreg]
    constructor
    · intro h
      cases hany : order.any (failsAtIndex sources) with
      | true => exact hfail.mp hany
      | false => rw [hany] at h; simp at h
    · intro hex
      rw [if_pos (hfail.mpr hex)]
  · intro hnone
    cases hany : order.any (failsAtIndex sources) with
    | true =>
        obtain ⟨cfg, hc, e, he⟩ := hfail.mp hany
        exact absurd he (hnone cfg hc e)
    | false =>
        rw [hreg, hany, loadSources_spec]
        simp
  · intro i cfg out hcfg hout
    have hlt : i < sources.length := by
      by_contra hge
      rw [List.getElem?_eq_none (Nat.le_of_not_lt hge)] at hcfg
      exact Option.noConfusion hcfg
    rw [loadSources_spec]
    refine List.mem_filterMap.mpr ⟨i, (hmemOrder i).mpr hlt, ?_⟩
    simp [rawOfIndex, hcfg, hout]

/-- C5 witness: the theorem at a registry with one succeeding source and
one failing source, the failing one settling first. -/
theorem c5_failure_aggregation_witness :
    (∀ cfg ∈ [srcA, srcBad], cfg.name ∈ (loadSources [srcA, srcBad] [1, 0]).processed) ∧
    (registryPhase [srcA, srcBad] [1, 0] = Except.error schemasFailedMessage ↔
      ∃ cfg ∈ [srcA, srcBad], ∃ e, cfg.handlerOutcome = Except.error e) ∧
    ((∀ cfg ∈ [srcA, srcBad], ∀ e, cfg.handlerOutcome ≠ Except.error e) →
      registryPhase [srcA, srcBad] [1, 0] =
        Except.ok (loadSources [srcA, srcBad] [1, 0]).rawSources) ∧
    (∀ (i : Nat) (cfg : SourceConfig) (out : MeshSourceOutput),
      [srcA, srcBad][i]? = some cfg →
      cfg.handlerOutcome = Except.ok out →
      mkRawSource cfg out ∈ (loadSources [srcA, srcBad] [1, 0]).rawSources) :=
  c5_failure_aggregation [srcA, srcBad] [1, 0] (by decide)

/-! ### C6 — unmatched subschema config -/

theorem schemaOf_ok (α : Type) (env : CallableEnv) (call : CallArgs α)
    (act : DelegationAction α)
    (h : inContextCallable α env call = Except.ok act) :
    (optsOf act).schema = env.subschemaConfig := by
  unfold inContextCallable at h
  split at h
  · split at h
    · simp at h
    · injection h with h
      subst h
      rw [optsOf_dispatch]
      rfl
  · injection h with h
    subst h
    rw [optsOf_dispatch]
    rfl

/-- C6 counterexample: `stitchingInfo` is present but its only subschema
config is named `Posts`, not `Users`. No configuration error is raised at
build time — resolution just yields `undefined` — and invoking the
in-context callable for `Users` succeeds (returns a delegation, not an
exception), delegating to an undefined subschema config. -/
theorem c6_claim_false_no_error :
    resolveRawSourceSubschemaConfig (some unmatchedStitching) "Users" = none ∧
    schemaOfResult (inContextCallable Nat envUnmatched bareCall) = some none := by
  exact ⟨by decide, by decide⟩

/-- C6 (amended): when `stitchingInfo` is present and no subschema config
in `stitchingInfo.subschemaMap` has a name equal to the raw source's name,
no error is raised: `rawSourceSubSchemaConfig` stays `undefined`, and every
in-context callable built for that source that reaches delegation silently
delegates with an undefined subschema config. -/
theorem c6_unmatched_subschema (si : StitchingInfo) (rawSourceName : String)
    (hnone : ∀ p ∈ si.subschemaMap,
      (p : SubschemaMapKey × SubschemaConfig).1.name ≠ some rawSourceName) :
    resolveRawSourceSubschemaConfig (some si) rawSourceName = none ∧
    (∀ (α : Type) (env : CallableEnv) (call : CallArgs α) (act : DelegationAction α),
      env.subschemaConfig = resolveRawSourceSubschemaConfig (some si) rawSourceName →
      inContextCallable α env call = Except.ok act →
      (optsOf act).schema = none) := by
  have hres : ∀ l : List (SubschemaMapKey × SubschemaConfig),
      (∀ p ∈ l, (p : SubschemaMapKey × SubschemaConfig).1.name ≠ some rawSourceName) →
      resolveRawSourceSubschemaConfig.findMatch l rawSourceName = none := by
    intro l
    induction l with
    | nil => intro _; rfl
    | cons p rest ih =>
        intro hl
        obtain ⟨k, sub⟩ := p
        unfold resolveRawSourceSubschemaConfig.findMatch
        rw [if_neg (hl (k, sub) (List.mem_cons_self _ _))]
        exact ih (fun q hq => hl q (List.mem_cons_of_mem _ hq))
  have h0 : resolveRawSourceSubschemaConfig (some si) rawSourceName = none :=
    hres si.subschemaMap hnone
  refine ⟨h0, ?_⟩
  intro α env call act henv hok
  rw [schemaOf_ok α env call act hok, henv, h0]

/-- C6 witness: the amended theorem at `unmatchedStitching` and raw source
`Users`. -/
theorem c6_unmatched_subschema_witness :
    resolveRawSourceSubschemaConfig (some unmatchedStitching) "Users" = none ∧
    (∀ (α : Type) (env : CallableEnv) (call : CallArgs α) (act : DelegationAction α),
      env.subschemaConfig = resolveRawSourceSubschemaConfig (some unmatchedStitching) "Users" →
      inContextCallable α env call = Except.ok act →
      (optsOf act).schema = none) :=
  c6_unmatched_subschema unmatchedStitching "Users" (by decide)

/-! ### C7 — requester data/error collapsing -/

/-- C7: for every document (with a determinable operation kind and a cache
consistent with it), variables and context passed to the requester: when
the operation kind is `subscription` and the outcome is an async sequence,
the requester yields the lazily mapped sequence in which every emitted
element is either the result's `data` payload or one `AggregateError`
built from the result's error list (the `CollapsedResult` constructors are
mutually exclusive, so never both); a single result gets the same
collapsing applied once, as does the execute path; and a non-empty error
list is returned as an aggregate-error value — the requester resolves
(`Except.ok`) rather than raising. -/
theorem c7_requester_collapsing (α ε : Type) (st : OpTypeMemoState)
    (doc : Document) (oracles : PipelineOracles α ε) (opDef : OperationDef)
    (hop : getOperationAST doc none = some opDef)
    (hcache : ∀ t, assocFind st.entries doc.id = some t → t = opDef.operation) :
    (∃ out, (meshSdkRequester α ε st doc oracles).1 = Except.ok out) ∧
    (opDef.operation = OperationType.subscription →
      (∀ rs, oracles.subscribeOutcome = SubscribeOutcome.stream rs →
        (meshSdkRequester α ε st doc oracles).1 =
          Except.ok (RequesterOutput.stream (rs.map collapseResult))) ∧
      (∀ r, oracles.subscribeOutcome = SubscribeOutcome.single r →
        (meshSdkRequester α ε st doc oracles).1 =
          Except.ok (RequesterOutput.single (collapseResult r)))) ∧
    (opDef.operation ≠ OperationType.subscription →
      (meshSdkRequester α ε st doc oracles).1 =
        Except.ok (RequesterOutput.single (collapseResult oracles.executeResult))) ∧
    (∀ r : ExecResult α ε,
      (hasErrors r = true →
        collapseResult r = CollapsedResult.aggregateError (r.errors.getD [])) ∧
      (hasErrors r = false → collapseResult r = CollapsedResult.payload r.data)) := by
  obtain ⟨st2, hmemo⟩ :
      ∃ st2, memoizedGetOperationType st doc = (Except.ok opDef.operation, st2) := by
    unfold memoizedGetOperationType
    cases hfind : assocFind st.entries doc.id with
    | some t =>
        refine ⟨st, ?_⟩
        simp [hcache t hfind]
    | none =>
        refine ⟨{ entries := assocInsert st.entries doc.id opDef.operation,
                  computeCount := st.computeCount + 1 }, ?_⟩
        simp [hop]
  refine ⟨?_, ?_, ?_, ?_⟩
  · by_cases hsub : opDef.operation = OperationType.subscription
    · cases hout : oracles.subscribeOutcome with
      | stream rs =>
          exact ⟨RequesterOutput.stream (rs.map collapseResult),
            by simp [meshSdkRequester, hmemo, hsub, hout]⟩
      | single r =>
          exact ⟨RequesterOutput.single (collapseResult r),
            by simp [meshSdkRequester, hmemo, hsub, hout]⟩
    · exact ⟨RequesterOutput.single (collapseResult oracles.executeResult),
        by simp [meshSdkRequester, hmemo, hsub]⟩
  · intro hsub
    constructor
    · intro rs hout
      simp [meshSdkRequester, hmemo, hsub, hout]
    · intro r hout
      simp [meshSdkRequester, hmemo, hsub, hout]
  · intro hsub
    simp [meshSdkRequester, hmemo, hsub]
  · intro r
    constructor <;> intro h <;> simp [collapseResult, h]

/-- C7 witness: the theorem at a subscription document whose stream yields
one clean result and one errored result. -/
theorem c7_requester_collapsing_witness :
    (meshSdkRequester Nat Nat { entries := [], computeCount := 0 } subDoc
        sampleOracles).1 =
      Except.ok (RequesterOutput.stream
        (([{ data := some 1 }, { errors := some [4] }] :
            List (ExecResult Nat Nat)).map collapseResult)) :=
  ((c7_requester_collapsing Nat Nat { entries := [], computeCount := 0 } subDoc
        sampleOracles { operation := OperationType.subscription, name := none }
        (by decide) (by intro t ht; simp [assocFind] at ht)).2.1 rfl).1
    [{ data := some 1 }, { errors := some [4] }] rfl

/-! ### C8 — the `__typename` info patch -/

/-- C8: for every invocation of an in-context callable on a
composite-return field where the supplied info carries zero selections and
a (truthy) `selectionSet` is supplied: the info forwarded to delegation is
a patched copy of the supplied one — identical except that its field-node
list is `patchFieldNodes` of the original, whose first node's selection
set requests exactly `__typename` and whose remaining nodes are the
original tail. The supplied `info` value itself is left untouched (the
patch builds a new record by spreading). -/
theorem c8_typename_patch (α : Type) (env : CallableEnv) (call : CallArgs α)
    (info : ResolveInfo α) (act : DelegationAction α)
    (hComposite : isLeafType (getNamedType env.fieldType) = false)
    (hInfo : call.info = some info)
    (hCount : selectionCountOf α info = 0)
    (hSS : ssTruthy call.selectionSet = true)
    (h : inContextCallable α env call = Except.ok act) :
    (optsOf act).info = { info with fieldNodes := patchFieldNodes info.fieldNodes } ∧
    ((optsOf act).info.fieldNodes.head?.bind FieldNode.selectionSet =
      some { selections := [SelectionNode.field "__typename"] }) ∧
    (optsOf act).info.fieldNodes.tail = info.fieldNodes.tail := by
  have hci : callInfo α env call = info := by
    simp [callInfo, hInfo]
  have hcond : (!isLeafType (getNamedType env.fieldType)
      && (selectionCountOf α (callInfo α env call) == 0)) = true := by
    simp [hComposite, hci, hCount]
  simp only [inContextCallable, hcond, hSS] at h
  simp at h
  subst h
  rw [optsOf_dispatch]
  refine ⟨?_, ?_, ?_⟩
  · simp [patchedDelegateOptions, hci]
  · simp [patchedDelegateOptions, hci, patchFieldNodes]
  · simp [patchedDelegateOptions, hci, patchFieldNodes, List.drop_one]

/-- C8 witness: the theorem at `context.Users.Query.user` invoked with a
caller-supplied info whose single field node has no selections, plus
`selectionSet: 'id'`. -/
theorem c8_typename_patch_witness :
    (optsOf
        (inContextDispatch Nat
          (patchedDelegateOptions Nat envUser
            { root := 0, args := 1, context := 2, info := some infoNoSelections,
              selectionSet := some (SelectionSetParam.text "id") })
          { root := 0, args := 1, context := 2, info := some infoNoSelections,
            selectionSet := some (SelectionSetParam.text "id") }
          envUser.fieldName)).info =
      { infoNoSelections with
          fieldNodes := patchFieldNodes infoNoSelections.fieldNodes } :=
  (c8_typename_patch Nat envUser
      { root := 0, args := 1, context := 2, info := some infoNoSelections,
        selectionSet := some (SelectionSetParam.text "id") }
      infoNoSelections
      (inContextDispatch Nat
        (patchedDelegateOptions Nat envUser
          { root := 0, args := 1, context := 2, info := some infoNoSelections,
            selectionSet := some (SelectionSetParam.text "id") })
        { root := 0, args := 1, context := 2, info := some infoNoSelections,
          selectionSet := some (SelectionSetParam.text "id") }
        envUser.fieldName)
      (by decide) rfl (by decide) rfl (by decide)).1

/-! ### C9 — per-context pipeline memoization -/

theorem assocFind_insert_self {β : Type} (l : List (Nat × β)) (k : Nat) (v : β) :
    assocFind (assocInsert l k v) k = some v := by
  induction l with
  | nil => simp [assocInsert, assocFind]
  | cons p rest ih =>
      obtain ⟨k0, w⟩ := p
      by_cases hk : k0 = k
      · simp [assocInsert, assocFind, hk]
      · simp [assocInsert, assocFind, hk, ih]

theorem assocFind_insert_ne {β : Type} (l : List (Nat × β)) (k k' : Nat) (v : β)
    (h : k' ≠ k) : assocFind (assocInsert l k v) k' = assocFind l k' := by
  induction l with
  | nil => simp [assocInsert, assocFind, Ne.symm h]
  | cons p rest ih =>
      obtain ⟨k0, w⟩ := p
      by_cases hk : k0 = k
      · subst hk
        simp [assocInsert, assocFind, Ne.symm h]
      · simp only [assocInsert, if_neg hk, assocFind]
        rw [ih]

theorem envelopedFor_hit (st : EnvelopedFactoryState) (pid c : Nat)
    (p : BoundPipeline)
    (h : assocFind ((assocFind st.outer pid).getD []) c = some p) :
    envelopedFor st pid c =
      (p, { outer := assocInsert st.outer pid ((assocFind st.outer pid).getD [])
            nextInstanceId := st.nextInstanceId }) := by
  simp [envelopedFor, getEnvelopedByContext, h]

theorem envelopedFor_miss (st : EnvelopedFactoryState) (pid c : Nat)
    (h : assocFind ((assocFind st.outer pid).getD []) c = none) :
    envelopedFor st pid c =
      (⟨st.nextInstanceId, pid, c⟩,
        { outer := assocInsert st.outer pid
            (assocInsert ((assocFind st.outer pid).getD []) c
              ⟨st.nextInstanceId, pid, c⟩)
          nextInstanceId := st.nextInstanceId + 1 }) := by
  simp [envelopedFor, getEnvelopedByContext, h]

theorem WFOuter_inner (outer : List (Nat × List (Nat × BoundPipeline)))
    (pid : Nat) (hWF : WFOuter outer) :
    ∀ cid p, assocFind ((assocFind outer pid).getD []) cid = some p →
      p.boundContextId = cid ∧ p.pluginsId = pid := by
  intro cid p hp
  cases houter : assocFind outer pid with
  | none => rw [houter] at hp; simp [assocFind] at hp
  | some inner =>
      rw [houter, Option.getD_some] at hp
      exact hWF pid inner houter cid p hp

theorem WFOuter_update (outer : List (Nat × List (Nat × BoundPipeline)))
    (pid : Nat) (inner2 : List (Nat × BoundPipeline))
    (hWF : WFOuter outer)
    (hinner2 : ∀ cid p, assocFind inner2 cid = some p →
      p.boundContextId = cid ∧ p.pluginsId = pid) :
    WFOuter (assocInsert outer pid inner2) := by
  intro pid' inner' hfind' cid p hp
  by_cases hpid : pid' = pid
  · subst hpid
    rw [assocFind_insert_self] at hfind'
    injection hfind' with hfind'
    subst hfind'
    exact hinner2 cid p hp
  · rw [assocFind_insert_ne _ _ _ _ hpid] at hfind'
    exact hWF pid' inner' hfind' cid p hp

theorem envelopedFor_boundContext (st : EnvelopedFactoryState) (pid c : Nat)
    (hWF : EnvelopedWF st) :
    ((envelopedFor st pid c).1).boundContextId = c ∧
    ((envelopedFor st pid c).1).pluginsId = pid := by
  cases hfind : assocFind ((assocFind st.outer pid).getD []) c with
  | some p =>
      rw [envelopedFor_hit st pid c p hfind]
      exact WFOuter_inner st.outer pid hWF c p hfind
  | none =>
      rw [envelopedFor_miss st pid c hfind]
      exact ⟨rfl, rfl⟩

theorem envelopedFor_WF (st : EnvelopedFactoryState) (pid c : Nat)
    (hWF : EnvelopedWF st) : EnvelopedWF (envelopedFor st pid c).2 := by
  cases hfind : assocFind ((assocFind st.outer pid).getD []) c with
  | some p0 =>
      rw [envelopedFor_hit st pid c p0 hfind]
      exact WFOuter_update st.outer pid _ hWF (WFOuter_inner st.outer pid hWF)
  | none =>
      rw [envelopedFor_miss st pid c hfind]
      refine WFOuter_update st.outer pid _ hWF ?_
      intro cid p hp
      by_cases hc : cid = c
      · subst hc
        rw [assocFind_insert_self] at hp
        injection hp with hp
        subst hp
        exact ⟨rfl, rfl⟩
      · rw [assocFind_insert_ne _ _ _ _ hc] at hp
        exact WFOuter_inner st.outer pid hWF cid p hp

theorem envelopedFor_idempotent (st : EnvelopedFactoryState) (pid c : Nat) :
    (envelopedFor (envelopedFor st pid c).2 pid c).1 = (envelopedFor st pid c).1 := by
  cases hfind : assocFind ((assocFind st.outer pid).getD []) c with
  | some p0 =>
      rw [envelopedFor_hit st pid c p0 hfind]
      rw [envelopedFor_hit _ pid c p0 (by simp [assocFind_insert_self, hfind])]
  | none =>
      rw [envelopedFor_miss st pid c hfind]
      rw [envelopedFor_hit _ pid c ⟨st.nextInstanceId, pid, c⟩
        (by simp [assocFind_insert_self])]

/-- C9: within one gateway's lifetime (one fixed plugin-list identity,
captured by `Gateway`), starting from any well-formed memo state: a second
`execute`/`subscribe` call with the same context-value identity is served
by the same memoized bound pipeline instance; the pipeline serving an
identity is bound to exactly that identity (no cross-talk of injected
context); and two calls with distinct context identities — even for
contexts equal by value — are served by distinct bound pipeline
instances. -/
theorem c9_context_memoization (gw : Gateway) (st : EnvelopedFactoryState)
    (c c' : Nat) (hWF : EnvelopedWF st) (hne : c' ≠ c) :
    (meshExecutePipeline gw (meshExecutePipeline gw st c).2 c).1 =
      (meshExecutePipeline gw st c).1 ∧
    (meshExecutePipeline gw st c).1.boundContextId = c ∧
    (meshExecutePipeline gw (meshExecutePipeline gw st c).2 c').1.boundContextId = c' ∧
    (meshExecutePipeline gw (meshExecutePipeline gw st c).2 c').1 ≠
      (meshExecutePipeline gw st c).1 := by
  have h1 : (meshExecutePipeline gw (meshExecutePipeline gw st c).2 c).1 =
      (meshExecutePipeline gw st c).1 := envelopedFor_idempotent st gw.pluginsId c
  have h2 : (meshExecutePipeline gw st c).1.boundContextId = c ∧
      (meshExecutePipeline gw st c).1.pluginsId = gw.pluginsId :=
    envelopedFor_boundContext st gw.pluginsId c hWF
  have hWF1 : EnvelopedWF (meshExecutePipeline gw st c).2 :=
    envelopedFor_WF st gw.pluginsId c hWF
  have h3 : (meshExecutePipeline gw (meshExecutePipeline gw st c).2 c').1.boundContextId = c' ∧
      (meshExecutePipeline gw (meshExecutePipeline gw st c).2 c').1.pluginsId = gw.pluginsId :=
    envelopedFor_boundContext (meshExecutePipeline gw st c).2 gw.pluginsId c' hWF1
  refine ⟨h1, h2.1, h3.1, ?_⟩
  intro heq
  exact hne (by rw [← h3.1, heq, h2.1])

/-- C9 witness: the theorem at a fresh gateway state with context
identities 1 and 2. -/
theorem c9_context_memoization_witness :
    (meshExecutePipeline ⟨5⟩
        (meshExecutePipeline ⟨5⟩ ⟨[], 0⟩ 1).2 1).1 =
      (meshExecutePipeline ⟨5⟩ ⟨[], 0⟩ 1).1 ∧
    (meshExecutePipeline ⟨5⟩ ⟨[], 0⟩ 1).1.boundContextId = 1 ∧
    (meshExecutePipeline ⟨5⟩
        (meshExecutePipeline ⟨5⟩ ⟨[], 0⟩ 1).2 2).1.boundContextId = 2 ∧
    (meshExecutePipeline ⟨5⟩
        (meshExecutePipeline ⟨5⟩ ⟨[], 0⟩ 1).2 2).1 ≠
      (meshExecutePipeline ⟨5⟩ ⟨[], 0⟩ 1).1 :=
  c9_context_memoization ⟨5⟩ ⟨[], 0⟩ 1 2
    (by intro pid inner h; simp [assocFind] at h) (by decide)

/-! ### C10 — invalid-operation detection and its memoization -/

theorem memoizedGetOperationType_hit (st : OpTypeMemoState) (doc : Document)
    (t : OperationType) (h : assocFind st.entries doc.id = some t) :
    memoizedGetOperationType st doc = (Except.ok t, st) := by
  simp [memoizedGetOperationType, h]

theorem memoizedGetOperationType_miss_none (st : OpTypeMemoState)
    (doc : Document) (h : assocFind st.entries doc.id = none)
    (hop : getOperationAST doc none = none) :
    memoizedGetOperationType st doc =
      (Except.error invalidOperationMessage,
        { st with computeCount := st.computeCount + 1 }) := by
  simp [memoizedGetOperationType, h, hop]

theorem memoizedGetOperationType_miss_some (st : OpTypeMemoState)
    (doc : Document) (opDef : OperationDef)
    (h : assocFind st.entries doc.id = none)
    (hop : getOperationAST doc none = some opDef) :
    memoizedGetOperationType st doc =
      (Except.ok opDef.operation,
        { entries := assocInsert st.entries doc.id opDef.operation
          computeCount := st.computeCount + 1 }) := by
  simp [memoizedGetOperationType, h, hop]

/-- C10: for every document from which `getOperationAST` (with no requested
operation name) can determine no single operation — none declared, or
several with no unambiguous choice — and that is not yet cached, the
requester fails eagerly with exactly `Must provide document with a valid
operation` and makes no `execute` or `subscribe` pipeline call; moreover
the operation-kind inspection is memoized per document identity: once a
call returns successfully, a repeat call with the same document identity
returns the cached kind with no further inspection (the state, including
the inspection counter, is unchanged). -/
theorem c10_invalid_operation (α ε : Type) (st : OpTypeMemoState)
    (doc : Document) (oracles : PipelineOracles α ε)
    (hnone : getOperationAST doc none = none)
    (hcache : assocFind st.entries doc.id = none) :
    ((meshSdkRequester α ε st doc oracles).1 =
      Except.error invalidOperationMessage) ∧
    ((meshSdkRequester α ε st doc oracles).2.2 = []) ∧
    (∀ (st' : OpTypeMemoState) (doc' : Document) (t : OperationType)
        (st1 : OpTypeMemoState),
      memoizedGetOperationType st' doc' = (Except.ok t, st1) →
      memoizedGetOperationType st1 doc' = (Except.ok t, st1)) := by
  have hmemo := memoizedGetOperationType_miss_none st doc hcache hnone
  refine ⟨?_, ?_, ?_⟩
  · simp [meshSdkRequester, hmemo]
  · simp [meshSdkRequester, hmemo]
  · intro st' doc' t st1 hfirst
    cases hfind : assocFind st'.entries doc'.id with
    | some t0 =>
        rw [memoizedGetOperationType_hit st' doc' t0 hfind] at hfirst
        injection hfirst with h1 h2
        injection h1 with h1
        subst h1
        subst h2
        exact memoizedGetOperationType_hit st' doc' t0 hfind
    | none =>
        cases hop : getOperationAST doc' none with
        | none =>
            rw [memoizedGetOperationType_miss_none st' doc' hfind hop] at hfirst
            injection hfirst with h1 h2
            exact absurd h1 (by simp)
        | some opDef =>
            rw [memoizedGetOperationType_miss_some st' doc' opDef hfind hop] at hfirst
            injection hfirst with h1 h2
            injection h1 with h1
            subst h1
            subst h2
            exact memoizedGetOperationType_hit _ doc' opDef.operation
              (by simp [assocFind_insert_self])

/-- C10 witness: the theorem at a document with no operation definition and
an empty memo state. -/
theorem c10_invalid_operation_witness :
    ((meshSdkRequester Nat Nat { entries := [], computeCount := 0 } emptyDoc
        sampleOracles).1 = Except.error invalidOperationMessage) ∧
    ((meshSdkRequester Nat Nat { entries := [], computeCount := 0 } emptyDoc
        sampleOracles).2.2 = []) ∧
    (∀ (st' : OpTypeMemoState) (doc' : Document) (t : OperationType)
        (st1 : OpTypeMemoState),
      memoizedGetOperationType st' doc' = (Except.ok t, st1) →
      memoizedGetOperationType st1 doc' = (Except.ok t, st1)) :=
  c10_invalid_operation Nat Nat { entries := [], computeCount := 0 } emptyDoc
    sampleOracles rfl rfl

end MeshRuntime
